import Mathlib

/-!
Shallow embedding of the visualization-dashboard backend: the Item record
model (models/Item.js), the filter construction of the listing and
chart-filter routes, the four aggregation pipelines of the statistics route,
and the HTTP handlers of routes/itemRoutes.js with their success and error
responses.  Stateful store operations are modelled as explicit functions on
a store value (a list of identifier/record pairs); a route is a function
from its inputs and the store to the new store and the HTTP response.
-/

namespace Dashboard

/-- The Item document of models/Item.js.  Fields declared with a default of
the empty string are always present (`String`); the remaining string fields
may be absent or null (`Option String`); the numeric fields `intensity`,
`relevance`, `likelihood` may be absent or null (`Option ℚ`).  The
persistence-layer timestamps are not modelled; no claim concerns them. -/
structure Item where
  end_year : String := ""
  intensity : Option ℚ := none
  sector : Option String := none
  topic : Option String := none
  insight : Option String := none
  url : Option String := none
  region : Option String := none
  start_year : String := ""
  impact : String := ""
  added : Option String := none
  published : Option String := none
  country : Option String := none
  relevance : Option ℚ := none
  pestle : Option String := none
  source : Option String := none
  title : Option String := none
  likelihood : Option ℚ := none
deriving DecidableEq

/-- An optional request parameter for each name that any route reads:
the seven names the listing route takes from the query string and the seven
names the chart-filter route takes from the request body (their union adds
`source`).  `none` means the parameter is absent from the request. -/
structure Params where
  country : Option String := none
  sector : Option String := none
  topic : Option String := none
  pestle : Option String := none
  region : Option String := none
  start_year : Option String := none
  end_year : Option String := none
  source : Option String := none
deriving DecidableEq

/-- A sparse equality filter: `some v` on a field is the condition that the
record's field equals `v`; `none` places no condition on that field. -/
structure Filter where
  country : Option String := none
  sector : Option String := none
  topic : Option String := none
  pestle : Option String := none
  region : Option String := none
  start_year : Option String := none
  end_year : Option String := none
  source : Option String := none
deriving DecidableEq

/-- JavaScript truthiness applied to an optional string parameter, as in
`if (country) filter.country = country`: an absent parameter and the empty
string are falsy and add no key; any other string is kept. -/
def keepTruthy : Option String → Option String
  | none => none
  | some s => if s = "" then none else some s

/-- Filter construction of the listing route `GET /` (itemRoutes lines
13-22): the seven query parameters `country, sector, topic, pestle, region,
start_year, end_year`, each added only when truthy.  `source` is never read
from the query string. -/
def buildFilter (q : Params) : Filter :=
  { country := keepTruthy q.country
    sector := keepTruthy q.sector
    topic := keepTruthy q.topic
    pestle := keepTruthy q.pestle
    region := keepTruthy q.region
    start_year := keepTruthy q.start_year
    end_year := keepTruthy q.end_year }

/-- Filter construction of the chart-filter route `POST /filter`
(itemRoutes lines 120-129): the body names `region, sector, topic,
end_year, country, pestle, source`, each added only when truthy.
`start_year` is never read from the body. -/
def buildChartFilter (b : Params) : Filter :=
  { region := keepTruthy b.region
    sector := keepTruthy b.sector
    topic := keepTruthy b.topic
    end_year := keepTruthy b.end_year
    country := keepTruthy b.country
    pestle := keepTruthy b.pestle
    source := keepTruthy b.source }

/-- Modelled from the claim wording for comparison with `buildChartFilter`:
a chart filter recognizing the same seven parameters as the listing route —
including `start_year` — plus `source`, under the same non-empty rule. -/
def chartFilterClaimed (b : Params) : Filter :=
  { country := keepTruthy b.country
    sector := keepTruthy b.sector
    topic := keepTruthy b.topic
    pestle := keepTruthy b.pestle
    region := keepTruthy b.region
    start_year := keepTruthy b.start_year
    end_year := keepTruthy b.end_year
    source := keepTruthy b.source }

/-- One equality condition of a filter against an optional record field:
no condition, or the field holds exactly the required string. -/
def condOpt (c : Option String) (v : Option String) : Bool :=
  match c with
  | none => true
  | some w => v == some w

/-- One equality condition of a filter against an always-present string
field (`start_year`, `end_year`). -/
def condStr (c : Option String) (v : String) : Bool :=
  match c with
  | none => true
  | some w => v == w

/-- Whether a record satisfies every condition of a filter, as
`Item.find(filter)` evaluates it. -/
def Filter.accepts (f : Filter) (i : Item) : Bool :=
  condOpt f.country i.country && condOpt f.sector i.sector &&
  condOpt f.topic i.topic && condOpt f.pestle i.pestle &&
  condOpt f.region i.region && condStr f.start_year i.start_year &&
  condStr f.end_year i.end_year && condOpt f.source i.source

/-- A store value as the `$ne` operator of a `$match` stage compares it:
null (also covering an absent field), a string, or a number. -/
inductive BVal
  | null
  | str (s : String)
  | num (q : ℚ)
deriving DecidableEq

/-- The value a numeric record field presents to `$ne`. -/
def numVal : Option ℚ → BVal
  | none => .null
  | some q => .num q

/-- Pre-filter of avgIntensityByRegion (itemRoutes line 147):
`{ intensity: { $ne: null } }` — keeps records whose intensity is neither
null nor absent. -/
def intensityMatch (i : Item) : Bool := numVal i.intensity != BVal.null

/-- Pre-filter of avgLikelihoodBySector (itemRoutes line 160):
`{ likelihood: { $ne: null } }`. -/
def likelihoodMatch (i : Item) : Bool := numVal i.likelihood != BVal.null

/-- Pre-filter of avgRelevanceByYear (itemRoutes line 167).  The source
writes the stage as the object literal with a duplicated key,
`relevance: $ne null, $ne empty-string`; a JavaScript object literal keeps
only the last binding of a repeated key, so the condition actually sent to
the store is only `relevance $ne empty-string`.  A numeric-or-null
relevance never equals a string, so no record is excluded. -/
def relevanceMatch (i : Item) : Bool := numVal i.relevance != BVal.str ""

/-- The `$avg` reduction over the numeric values present in a group: null when the group
contributes no numeric value, otherwise the arithmetic mean with both sum
and denominator ranging over exactly the present values. -/
def avgOf (l : List ℚ) : Option ℚ :=
  if l.isEmpty then none else some (l.sum / (l.length : ℚ))

/-- The `$group` stage on a key: one bucket per distinct key value, holding the
records carrying that key (an absent optional field keys the null
bucket via `none`). -/
def groupsBy {κ : Type} [DecidableEq κ] (key : Item → κ) (items : List Item) :
    List (κ × List Item) :=
  ((items.map key).dedup).map fun k => (k, items.filter fun i => decide (key i = k))

/-- BSON comparison on null-or-number aggregate values: null sorts before
every number. -/
def bsonLe (a b : Option ℚ) : Prop :=
  match a, b with
  | none, _ => True
  | some _, none => False
  | some x, some y => x ≤ y

instance : DecidableRel bsonLe := fun a b =>
  match a, b with
  | none, _ => isTrue trivial
  | some _, none => isFalse id
  | some x, some y => inferInstanceAs (Decidable (x ≤ y))

/-- Pipeline `avgIntensityByRegion` (itemRoutes lines 146-150): match
intensity not null, group by region, mean of intensity, sort descending by
the mean. -/
def avgIntensityByRegion (items : List Item) : List (Option String × Option ℚ) :=
  List.insertionSort (fun a b => bsonLe b.2 a.2)
    ((groupsBy (fun i => i.region) (items.filter intensityMatch)).map fun g =>
      (g.1, avgOf (g.2.filterMap fun i => i.intensity)))

/-- Pipeline `countByTopic` (itemRoutes lines 153-156): no pre-filter,
group by topic, count of records, sort descending by count. -/
def countByTopic (items : List Item) : List (Option String × Nat) :=
  List.insertionSort (fun a b => b.2 ≤ a.2)
    ((groupsBy (fun i => i.topic) items).map fun g => (g.1, g.2.length))

/-- Pipeline `avgLikelihoodBySector` (itemRoutes lines 159-163): match
likelihood not null, group by sector, mean of likelihood, sort descending
by the mean. -/
def avgLikelihoodBySector (items : List Item) : List (Option String × Option ℚ) :=
  List.insertionSort (fun a b => bsonLe b.2 a.2)
    ((groupsBy (fun i => i.sector) (items.filter likelihoodMatch)).map fun g =>
      (g.1, avgOf (g.2.filterMap fun i => i.likelihood)))

/-- Pipeline `avgRelevanceByYear` (itemRoutes lines 166-170): the
(ineffective) relevance pre-filter, group by `end_year` (always a string),
mean of relevance, sort ascending by the group key. -/
def avgRelevanceByYear (items : List Item) : List (String × Option ℚ) :=
  List.insertionSort (fun a b => a.1 ≤ b.1)
    ((groupsBy (fun i => i.end_year) (items.filter relevanceMatch)).map fun g =>
      (g.1, avgOf (g.2.filterMap fun i => i.relevance)))

/-- The persistent record collection: identifier/record pairs, the
identifier assigned by the store at creation. -/
abbrev Store := List (Nat × Item)

/-- The records of the collection, in store order. -/
def itemsOf (s : Store) : List Item := s.map fun p => p.2

/-- The store call `Item.find(filter)`: every record satisfying the filter. -/
def findWith (f : Filter) (s : Store) : List Item :=
  (itemsOf s).filter fun i => Filter.accepts f i

/-- The store call `Item.findById(id)`: the record under the identifier, if any. -/
def findById (id : Nat) (s : Store) : Option Item :=
  (s.find? fun p => p.1 == id).map fun p => p.2

/-- Replacing the record stored under an identifier. -/
def setById (id : Nat) (i : Item) (s : Store) : Store :=
  s.map fun p => if p.1 == id then (p.1, i) else p

/-- The store call `Item.findByIdAndDelete(id)`: the collection without that identifier;
unchanged when the identifier is absent. -/
def deleteById (id : Nat) (s : Store) : Store :=
  s.filter fun p => p.1 != id

/-- The store call `Item.distinct(field)` for an optional string field: the distinct
values present across all records (absent fields contribute nothing). -/
def distinctOf (f : Item → Option String) (s : Store) : List String :=
  ((itemsOf s).filterMap f).dedup

/-- The store call `Item.distinct(field)` for an always-present string field. -/
def distinctStr (f : Item → String) (s : Store) : List String :=
  ((itemsOf s).map f).dedup

/-- A JSON request body for create or update: any subset of the record's
fields; `none` means the field is not supplied. -/
structure ItemBody where
  end_year : Option String := none
  intensity : Option ℚ := none
  sector : Option String := none
  topic : Option String := none
  insight : Option String := none
  url : Option String := none
  region : Option String := none
  start_year : Option String := none
  impact : Option String := none
  added : Option String := none
  published : Option String := none
  country : Option String := none
  relevance : Option ℚ := none
  pestle : Option String := none
  source : Option String := none
  title : Option String := none
  likelihood : Option ℚ := none
deriving DecidableEq

/-- A supplied body field overwrites the stored value; an unsupplied one
keeps it. -/
def upd {α : Type} (new old : Option α) : Option α :=
  match new with
  | some v => some v
  | none => old

/-- The merge `Item.findByIdAndUpdate(id, body, new:true)` performs: each
supplied body field overwrites the stored field, every other field keeps
its prior value. -/
def mergeItem (i : Item) (b : ItemBody) : Item :=
  { end_year := b.end_year.getD i.end_year
    intensity := upd b.intensity i.intensity
    sector := upd b.sector i.sector
    topic := upd b.topic i.topic
    insight := upd b.insight i.insight
    url := upd b.url i.url
    region := upd b.region i.region
    start_year := b.start_year.getD i.start_year
    impact := b.impact.getD i.impact
    added := upd b.added i.added
    published := upd b.published i.published
    country := upd b.country i.country
    relevance := upd b.relevance i.relevance
    pestle := upd b.pestle i.pestle
    source := upd b.source i.source
    title := upd b.title i.title
    likelihood := upd b.likelihood i.likelihood }

/-- The constructor call `new Item(req.body)`: schema defaults with the supplied fields set. -/
def itemOfBody (b : ItemBody) : Item := mergeItem {} b

/-- The response of `GET /filters/all` (itemRoutes lines 95-105): one
distinct-value list per fixed field name.  `swot` is not a schema field, so
its distinct query returns the empty list. -/
structure DistinctFilters where
  countries : List String
  sectors : List String
  topics : List String
  pestles : List String
  regions : List String
  sources : List String
  swots : List String
  end_years : List String
  start_years : List String
deriving DecidableEq

/-- The response of `GET /stats/aggregate` (itemRoutes lines 172-177): the
four pipeline results as named fields of one object. -/
structure Stats where
  avgIntensityByRegion : List (Option String × Option ℚ)
  countByTopic : List (Option String × Nat)
  avgLikelihoodBySector : List (Option String × Option ℚ)
  avgRelevanceByYear : List (String × Option ℚ)
deriving DecidableEq

/-- A JSON response body: a record array, a single record, a
message object, the JSON null an update on a missing identifier sends,
the distinct-filters object, or the statistics object. -/
inductive Body
  | items (l : List Item)
  | item (i : Item)
  | message (s : String)
  | jsonNull
  | filters (f : DistinctFilters)
  | stats (st : Stats)
deriving DecidableEq

/-- An HTTP response: status code and JSON body. -/
structure Response where
  status : Nat
  body : Body
deriving DecidableEq

/-- The outcome a handler awaits from its store call: a value, or a thrown
error carrying a message. -/
inductive Outcome (α : Type)
  | ok (a : α)
  | err (msg : String)

/-- Handler of `GET /` (itemRoutes lines 11-30): 200 with the records, or
500 with the fixed message on a store error. -/
def listHandler : Outcome (List Item) → Response
  | .ok l => ⟨200, .items l⟩
  | .err _ => ⟨500, .message "Server Error"⟩

/-- Handler of `GET /:id` (itemRoutes lines 36-44): 404 when the store
returns no record, 200 with the record, and on a thrown error — a
malformed identifier or any store failure — 500 with the error's own
message text. -/
def getByIdHandler : Outcome (Option Item) → Response
  | .ok none => ⟨404, .message "Item not found"⟩
  | .ok (some i) => ⟨200, .item i⟩
  | .err m => ⟨500, .message m⟩

/-- Handler of `POST /` (itemRoutes lines 50-59): 201 with the saved
record, or 400 with the fixed message. -/
def createHandler : Outcome Item → Response
  | .ok i => ⟨201, .item i⟩
  | .err _ => ⟨400, .message "Failed to add item"⟩

/-- Handler of `PUT /:id` (itemRoutes lines 65-73): 200 with whatever
`findByIdAndUpdate` returned — the updated record, or null when the
identifier is absent — and 400 with the fixed message on a thrown error. -/
def updateHandler : Outcome (Option Item) → Response
  | .ok (some i) => ⟨200, .item i⟩
  | .ok none => ⟨200, .jsonNull⟩
  | .err _ => ⟨400, .message "Failed to update item"⟩

/-- Handler of `DELETE /:id` (itemRoutes lines 79-87): 200 with the fixed
acknowledgement regardless of what the delete found, or 400 with the fixed
message on a thrown error. -/
def deleteHandler : Outcome Unit → Response
  | .ok _ => ⟨200, .message "Item deleted"⟩
  | .err _ => ⟨400, .message "Failed to delete item"⟩

/-- Handler of `GET /filters/all` (itemRoutes lines 93-111). -/
def filtersAllHandler : Outcome DistinctFilters → Response
  | .ok f => ⟨200, .filters f⟩
  | .err _ => ⟨500, .message "Failed to load filters"⟩

/-- Handler of `POST /filter` (itemRoutes lines 118-137). -/
def chartFilterHandler : Outcome (List Item) → Response
  | .ok l => ⟨200, .items l⟩
  | .err _ => ⟨500, .message "Failed to filter data"⟩

/-- Handler of `GET /stats/aggregate` (itemRoutes lines 143-182). -/
def statsHandler : Outcome Stats → Response
  | .ok st => ⟨200, .stats st⟩
  | .err _ => ⟨500, .message "Failed to fetch statistics"⟩

/-- Route `GET /` on the store's non-throwing path: the find is a pure
read, so the store passes through unchanged. -/
def routeList (q : Params) (s : Store) : Store × Response :=
  (s, listHandler (.ok (findWith (buildFilter q) s)))

/-- Route `GET /:id` on the non-throwing path. -/
def routeGetById (id : Nat) (s : Store) : Store × Response :=
  (s, getByIdHandler (.ok (findById id s)))

/-- A fresh identifier for a created record. -/
def freshId (s : Store) : Nat := (s.map fun p => p.1).foldr max 0 + 1

/-- Route `POST /` on the non-throwing path: the new record is appended
under a fresh identifier. -/
def routeCreate (b : ItemBody) (s : Store) : Store × Response :=
  (s ++ [(freshId s, itemOfBody b)], createHandler (.ok (itemOfBody b)))

/-- Route `PUT /:id` on the non-throwing path: `findByIdAndUpdate` merges
the body into the stored record and returns the updated record, or returns
null when the identifier is absent, leaving the store unchanged. -/
def routeUpdate (id : Nat) (b : ItemBody) (s : Store) : Store × Response :=
  match findById id s with
  | none => (s, updateHandler (.ok none))
  | some i => (setById id (mergeItem i b) s, updateHandler (.ok (some (mergeItem i b))))

/-- Route `DELETE /:id` on the non-throwing path: `findByIdAndDelete`
removes the identifier if present and does not throw when it is absent. -/
def routeDelete (id : Nat) (s : Store) : Store × Response :=
  (deleteById id s, deleteHandler (.ok ()))

/-- The distinct-values object of `GET /filters/all`. -/
def distinctFilters (s : Store) : DistinctFilters :=
  { countries := distinctOf (fun i => i.country) s
    sectors := distinctOf (fun i => i.sector) s
    topics := distinctOf (fun i => i.topic) s
    pestles := distinctOf (fun i => i.pestle) s
    regions := distinctOf (fun i => i.region) s
    sources := distinctOf (fun i => i.source) s
    swots := []
    end_years := distinctStr (fun i => i.end_year) s
    start_years := distinctStr (fun i => i.start_year) s }

/-- Route `GET /filters/all` on the non-throwing path. -/
def routeFiltersAll (s : Store) : Store × Response :=
  (s, filtersAllHandler (.ok (distinctFilters s)))

/-- Route `POST /filter` on the non-throwing path. -/
def routeChartFilter (b : Params) (s : Store) : Store × Response :=
  (s, chartFilterHandler (.ok (findWith (buildChartFilter b) s)))

/-- The statistics object of `GET /stats/aggregate`. -/
def statsOf (s : Store) : Stats :=
  { avgIntensityByRegion := avgIntensityByRegion (itemsOf s)
    countByTopic := countByTopic (itemsOf s)
    avgLikelihoodBySector := avgLikelihoodBySector (itemsOf s)
    avgRelevanceByYear := avgRelevanceByYear (itemsOf s) }

/-- Route `GET /stats/aggregate` on the non-throwing path. -/
def routeStats (s : Store) : Store × Response :=
  (s, statsHandler (.ok (statsOf s)))

theorem keepTruthy_eq_some (o : Option String) (v : String) :
    keepTruthy o = some v ↔ o = some v ∧ v ≠ "" := by
  cases o with
  | none => simp [keepTruthy]
  | some s =>
    by_cases h : s = "" <;> simp [keepTruthy, h]
    · exact fun hv => hv ▸ rfl
    · exact fun hv => hv ▸ h

/-- Claim C1: the listing route's filter builder includes exactly the
recognized parameters whose value is a non-empty string, each as an
exact-equality condition on the same-named record field; absent or empty
parameters contribute no key, and the all-absent input yields the empty
filter, which accepts every record. -/
theorem C1_buildFilter_nonempty_inclusion (q : Params) (v : String) :
    ((buildFilter q).country = some v ↔ q.country = some v ∧ v ≠ "") ∧
    ((buildFilter q).sector = some v ↔ q.sector = some v ∧ v ≠ "") ∧
    ((buildFilter q).topic = some v ↔ q.topic = some v ∧ v ≠ "") ∧
    ((buildFilter q).pestle = some v ↔ q.pestle = some v ∧ v ≠ "") ∧
    ((buildFilter q).region = some v ↔ q.region = some v ∧ v ≠ "") ∧
    ((buildFilter q).start_year = some v ↔ q.start_year = some v ∧ v ≠ "") ∧
    ((buildFilter q).end_year = some v ↔ q.end_year = some v ∧ v ≠ "") ∧
    (buildFilter q).source = none ∧
    buildFilter {} = {} ∧
    (∀ i : Item, Filter.accepts {} i = true) := by
  refine ⟨keepTruthy_eq_some _ _, keepTruthy_eq_some _ _, keepTruthy_eq_some _ _,
    keepTruthy_eq_some _ _, keepTruthy_eq_some _ _, keepTruthy_eq_some _ _,
    keepTruthy_eq_some _ _, rfl, rfl, fun _ => rfl⟩

/-- A request body supplying only `start_year`. -/
def startYearOnlyBody : Params := { start_year := some "2020" }

/-- Claim C3 counterexample: the chart-filter route does not recognize
`start_year`; on a body supplying only `start_year = "2020"`, the built
filter is empty, not the filter the claim describes. -/
theorem C3_chartFilter_start_year_counterexample :
    buildChartFilter startYearOnlyBody ≠ chartFilterClaimed startYearOnlyBody := by
  decide

/-- Claim C3 (amended): the chart-filter route recognizes `region, sector,
topic, end_year, country, pestle` — the listing set minus `start_year` —
plus `source`, under the same non-empty-inclusion rule; `start_year` never
contributes a key. -/
theorem C3_chartFilter_keys (b : Params) (v : String) :
    ((buildChartFilter b).region = some v ↔ b.region = some v ∧ v ≠ "") ∧
    ((buildChartFilter b).sector = some v ↔ b.sector = some v ∧ v ≠ "") ∧
    ((buildChartFilter b).topic = some v ↔ b.topic = some v ∧ v ≠ "") ∧
    ((buildChartFilter b).end_year = some v ↔ b.end_year = some v ∧ v ≠ "") ∧
    ((buildChartFilter b).country = some v ↔ b.country = some v ∧ v ≠ "") ∧
    ((buildChartFilter b).pestle = some v ↔ b.pestle = some v ∧ v ≠ "") ∧
    ((buildChartFilter b).source = some v ↔ b.source = some v ∧ v ≠ "") ∧
    (buildChartFilter b).start_year = none := by
  refine ⟨keepTruthy_eq_some _ _, keepTruthy_eq_some _ _, keepTruthy_eq_some _ _,
    keepTruthy_eq_some _ _, keepTruthy_eq_some _ _, keepTruthy_eq_some _ _,
    keepTruthy_eq_some _ _, rfl⟩

/-- A record with an end year but a null/absent relevance. -/
def nullRelevanceItem : Item := { end_year := "2100" }

/-- Claim C2, evaluated at the failing input: a record whose relevance is
null passes the avgRelevanceByYear pre-filter — because the duplicated key
in the source's match literal leaves only the comparison against the empty
string — and therefore forms a group with a null mean, instead of being
excluded before grouping as claimed. -/
theorem C2_null_relevance_passes_prefilter :
    relevanceMatch nullRelevanceItem = true ∧
    avgRelevanceByYear [nullRelevanceItem] = [("2100", none)] ∧
    avgRelevanceByYear [nullRelevanceItem] ≠ [] := by
  refine ⟨rfl, rfl, ?_⟩
  decide

/-- Claim C4 counterexample: the get-by-id handler's 500 response copies
the thrown store error's message into the body, so the error response does
depend on — and exposes — text derived from the underlying store error. -/
theorem C4_getById_error_echoed :
    getByIdHandler (.err "CastError: Cast to ObjectId failed") =
      ⟨500, .message "CastError: Cast to ObjectId failed"⟩ ∧
    getByIdHandler (.err "CastError: Cast to ObjectId failed") ≠
      getByIdHandler (.err "Server Error") := by
  exact ⟨rfl, by decide⟩

/-- Claim C4 (amended): every failure response body is a message object;
every handler other than get-by-id answers a thrown store error with a
fixed message independent of the error, while get-by-id's 500 response
carries the store error's own message text. -/
theorem C4_failure_bodies (m : String) :
    listHandler (.err m) = ⟨500, .message "Server Error"⟩ ∧
    createHandler (.err m) = ⟨400, .message "Failed to add item"⟩ ∧
    updateHandler (.err m) = ⟨400, .message "Failed to update item"⟩ ∧
    deleteHandler (.err m) = ⟨400, .message "Failed to delete item"⟩ ∧
    filtersAllHandler (.err m) = ⟨500, .message "Failed to load filters"⟩ ∧
    chartFilterHandler (.err m) = ⟨500, .message "Failed to filter data"⟩ ∧
    statsHandler (.err m) = ⟨500, .message "Failed to fetch statistics"⟩ ∧
    getByIdHandler (.err m) = ⟨500, .message m⟩ ∧
    getByIdHandler (.ok none) = ⟨404, .message "Item not found"⟩ := by
  exact ⟨rfl, rfl, rfl, rfl, rfl, rfl, rfl, rfl, rfl⟩

/-- Claim C5: get-by-id answers 404 with the not-found message when the
identifier has no record, 200 with the record when it exists, and 500 when
the store call throws (malformed identifier or store failure). -/
theorem C5_getById_statuses (s : Store) (id : Nat) :
    (findById id s = none →
      routeGetById id s = (s, ⟨404, .message "Item not found"⟩)) ∧
    (∀ i, findById id s = some i → routeGetById id s = (s, ⟨200, .item i⟩)) ∧
    (∀ m, (getByIdHandler (.err m)).status = 500) := by
  refine ⟨fun h => ?_, fun i h => ?_, fun m => rfl⟩
  · simp [routeGetById, h, getByIdHandler]
  · simp [routeGetById, h, getByIdHandler]

/-- A sample record. -/
def demoItem : Item :=
  { country := some "India", region := some "Asia", topic := some "gas",
    intensity := some 6 }

/-- A sample one-record store under identifier 1. -/
def demoStore : Store := [(1, demoItem)]

theorem C5_getById_statuses_witness :
    findById 2 demoStore = none ∧
    routeGetById 2 demoStore = (demoStore, ⟨404, .message "Item not found"⟩) ∧
    routeGetById 1 demoStore = (demoStore, ⟨200, .item demoItem⟩) := by
  refine ⟨rfl, (C5_getById_statuses demoStore 2).1 rfl, ?_⟩
  exact (C5_getById_statuses demoStore 1).2.1 demoItem rfl

/-- Claim C6: update on an absent identifier answers 200 with a JSON null
body — not a 404 — and leaves the store unchanged; a thrown store error
answers 400 with the fixed message; update on a present identifier answers
200 with the merged record, which is also what the store now holds. -/
theorem C6_update_statuses (s : Store) (id : Nat) (b : ItemBody) :
    (findById id s = none → routeUpdate id b s = (s, ⟨200, .jsonNull⟩)) ∧
    (∀ m, updateHandler (.err m) = ⟨400, .message "Failed to update item"⟩) ∧
    (∀ i, findById id s = some i →
      routeUpdate id b s =
        (setById id (mergeItem i b) s, ⟨200, .item (mergeItem i b)⟩)) := by
  refine ⟨fun h => ?_, fun m => rfl, fun i h => ?_⟩
  · simp [routeUpdate, h, updateHandler]
  · simp [routeUpdate, h, updateHandler]

/-- A partial update body supplying only the intensity. -/
def intensityOnlyBody : ItemBody := { intensity := some 9 }

theorem C6_update_statuses_witness :
    routeUpdate 2 intensityOnlyBody demoStore = (demoStore, ⟨200, .jsonNull⟩) ∧
    routeUpdate 1 intensityOnlyBody demoStore =
      ([(1, { demoItem with intensity := some 9 })],
        ⟨200, .item { demoItem with intensity := some 9 }⟩) := by
  refine ⟨(C6_update_statuses demoStore 2 intensityOnlyBody).1 rfl, ?_⟩
  have h := (C6_update_statuses demoStore 1 intensityOnlyBody).2.2 demoItem rfl
  exact h.trans (by decide)

/-- Claim C9: the listing, get-by-id, distinct-values, chart-filter and
aggregate-statistics routes all return the store they were given — only
create, update and delete produce a changed store, as the create and
delete clauses exhibit. -/
theorem C9_reads_preserve_store (s : Store) (q bd : Params) (id : Nat)
    (b : ItemBody) :
    (routeList q s).1 = s ∧
    (routeGetById id s).1 = s ∧
    (routeFiltersAll s).1 = s ∧
    (routeChartFilter bd s).1 = s ∧
    (routeStats s).1 = s ∧
    (routeCreate b s).1 = s ++ [(freshId s, itemOfBody b)] ∧
    (routeDelete id s).1 = deleteById id s := by
  exact ⟨rfl, rfl, rfl, rfl, rfl, rfl, rfl⟩

/-- Claim C10: the delete route's non-throwing path — which
`findByIdAndDelete` takes whether or not the identifier exists — always
answers 200 with the fixed acknowledgement, so deleting an absent
identifier is indistinguishable from deleting a present one and never
reports a 404. -/
theorem C10_delete_always_acknowledges (id : Nat) (s : Store) :
    (routeDelete id s).2 = ⟨200, .message "Item deleted"⟩ ∧
    (findById id s = none → routeDelete id s = (s, ⟨200, .message "Item deleted"⟩)) := by
  refine ⟨rfl, fun h => ?_⟩
  have hkeep : deleteById id s = s := by
    induction s with
    | nil => rfl
    | cons p t ih =>
      by_cases hp : p.1 == id
      · exact absurd h (by simp [findById, List.find?, hp])
      · have ht : findById id t = none := by
          simpa [findById, List.find?, hp] using h
        simp [deleteById, List.filter, hp, bne] at *
        simpa [deleteById] using ih ht
  simp [routeDelete, hkeep, deleteHandler]

theorem C10_delete_always_acknowledges_witness :
    findById 2 demoStore = none ∧
    routeDelete 2 demoStore = (demoStore, ⟨200, .message "Item deleted"⟩) := by
  exact ⟨rfl, (C10_delete_always_acknowledges 2 demoStore).2 rfl⟩

theorem sum_countP_dedup {κ : Type} [DecidableEq κ] (l : List κ) :
    ((l.dedup).map fun k => l.countP fun x => decide (x = k)).sum = l.length := by
  have hf : (fun k => l.countP fun x => decide (x = k)) = fun x => l.count x := by
    funext k
    rfl
  rw [hf]
  exact List.sum_map_count_dedup_eq_length l

/-- Claim C7: the counts the countByTopic pipeline reports — one bucket per
distinct topic value, the absent-topic records in the null bucket — sum to
the total number of records in the collection. -/
theorem C7_countByTopic_counts_sum (items : List Item) :
    ((countByTopic items).map fun g => g.2).sum = items.length := by
  unfold countByTopic
  have hperm := (List.perm_insertionSort
    (fun a b : Option String × Nat => b.2 ≤ a.2)
    ((groupsBy (fun i => i.topic) items).map fun g => (g.1, g.2.length))).map
      (fun g : Option String × Nat => g.2)
  rw [hperm.sum_eq, List.map_map]
  unfold groupsBy
  rw [List.map_map]
  have hfun : (((fun g : Option String × Nat => g.2) ∘
        fun g : Option String × List Item => (g.1, g.2.length)) ∘
        fun k => (k, items.filter fun i => decide (i.topic = k)))
      = fun k => (items.map fun i => i.topic).countP fun x => decide (x = k) := by
    funext k
    show (items.filter fun i => decide (i.topic = k)).length = _
    rw [← List.countP_eq_length_filter]
    exact (List.countP_map (fun x => decide (x = k)) (fun i : Item => i.topic) items).symm
  rw [hfun]
  exact (sum_countP_dedup (items.map fun i => i.topic)).trans
    (List.length_map items fun i => i.topic)

theorem intensity_eq_none_of_not_match (i : Item)
    (h : ¬ intensityMatch i = true) : i.intensity = none := by
  cases hint : i.intensity with
  | none => rfl
  | some q => exact absurd (by simp [intensityMatch, numVal, hint]) h

theorem filterMap_intensity_and_match (p : Item → Bool) (items : List Item) :
    (items.filter fun i => p i && intensityMatch i).filterMap (fun i => i.intensity)
      = (items.filter p).filterMap fun i => i.intensity := by
  induction items with
  | nil => rfl
  | cons a t ih =>
    by_cases hp : p a = true
    · by_cases hm : intensityMatch a = true
      · simp [List.filter_cons, hp, hm, List.filterMap_cons, ih]
      · have hint : a.intensity = none := intensity_eq_none_of_not_match a hm
        simp [List.filter_cons, hp, hm, List.filterMap_cons, hint, ih]
    · simp [List.filter_cons, hp, ih]

/-- Records dropped by the intensity pre-filter carry no intensity value, so
collecting the intensities of a group is the same with or without the
pre-filter: the pre-filter removes exactly the records that contribute to
neither the numerator nor the denominator of the mean. -/
theorem filterMap_intensity_over_match (p : Item → Bool) (items : List Item) :
    ((items.filter intensityMatch).filter p).filterMap (fun i => i.intensity)
      = (items.filter p).filterMap fun i => i.intensity := by
  rw [List.filter_filter]
  exact filterMap_intensity_and_match p items

theorem snd_of_mem_groupsBy {κ : Type} [DecidableEq κ] (key : Item → κ)
    (items : List Item) (g : κ × List Item) (hg : g ∈ groupsBy key items) :
    g.2 = items.filter fun i => decide (key i = g.1) := by
  obtain ⟨k, hk, rfl⟩ := List.mem_map.mp hg
  rfl

/-- A record with intensity 3 in region Asia. -/
def asiaThree : Item := { region := some "Asia", intensity := some 3 }

/-- A record with intensity 5 in region Asia. -/
def asiaFive : Item := { region := some "Asia", intensity := some 5 }

theorem avgIntensity_asia_example :
    avgIntensityByRegion [asiaThree, asiaFive] = [(some "Asia", some 4)] := by
  simp [avgIntensityByRegion, groupsBy, intensityMatch, numVal, asiaThree,
    asiaFive, avgOf, List.insertionSort, List.filter, List.dedup]
  norm_num

/-- Claim C8: every group the avgIntensityByRegion pipeline reports carries
the mean of exactly the non-null intensities of that region's records —
records whose intensity is null or missing count in neither the numerator
nor the denominator — and the two-record Asia example yields the group
(Asia, 4). -/
theorem C8_avgIntensityByRegion_excludes_null (items : List Item)
    (k : Option String) (v : Option ℚ)
    (h : (k, v) ∈ avgIntensityByRegion items) :
    v = avgOf ((items.filter fun i => decide (i.region = k)).filterMap
      fun i => i.intensity) ∧
    avgIntensityByRegion [asiaThree, asiaFive] = [(some "Asia", some 4)] := by
  constructor
  · unfold avgIntensityByRegion at h
    have hperm := List.perm_insertionSort
      (fun a b : Option String × Option ℚ => bsonLe b.2 a.2)
      ((groupsBy (fun i => i.region) (items.filter intensityMatch)).map fun g =>
        (g.1, avgOf (g.2.filterMap fun i => i.intensity)))
    obtain ⟨g, hg, heq⟩ := List.mem_map.mp (hperm.subset h)
    have h1 : g.1 = k := congrArg Prod.fst heq
    have h2 : avgOf (g.2.filterMap fun i => i.intensity) = v := congrArg Prod.snd heq
    have hsnd := snd_of_mem_groupsBy (fun i => i.region)
      (items.filter intensityMatch) g hg
    subst h1
    rw [← h2, hsnd, filterMap_intensity_over_match]
  · exact avgIntensity_asia_example

theorem C8_avgIntensityByRegion_excludes_null_witness :
    (some "Asia", some (4 : ℚ)) ∈ avgIntensityByRegion [asiaThree, asiaFive] ∧
    some (4 : ℚ) = avgOf (([asiaThree, asiaFive].filter fun i =>
      decide (i.region = some "Asia")).filterMap fun i => i.intensity) := by
  have hm : (some "Asia", some (4 : ℚ)) ∈ avgIntensityByRegion [asiaThree, asiaFive] := by
    rw [avgIntensity_asia_example]
    exact List.mem_singleton.mpr rfl
  exact ⟨hm, (C8_avgIntensityByRegion_excludes_null _ _ _ hm).1⟩

end Dashboard
